import Mathlib

/-!
Shallow embedding of the travel-recommendation core
(`core/models.py`, `core/scoring.py`, `core/synthesis.py`).

Conventions of the embedding:
* Python `date` values are modelled as `Int` ordinal day numbers;
  `timedelta(days = k)` becomes integer addition and date comparisons
  become integer comparisons.
* Python numbers (`int` / `float`) used in scoring are modelled as `ℚ`;
  literals such as `0.4` become `4/10`.
* Human-readable explanation / summary strings produced alongside scores
  (the second components of the scorer return tuples, the window's
  `weather_summary`, and the recommendation's `reasoning` /
  `why_not_rejected` texts) carry no data any property here depends on
  and are omitted from the embedding; the numeric and structural parts
  are translated in full.
* Python lists become `List`, `Optional[T]` becomes `Option T`, and the
  `ValueError` raised by `synthesize_recommendation` becomes an
  `Except.error`.
-/

/-- `TripLength` enum from `core/models.py`. -/
inductive TripLength where
  | SHORT
  | MEDIUM
  | LONG
  | EXTENDED
deriving DecidableEq, Repr

/-- `LoyaltyProgram` enum from `core/models.py`. -/
inductive LoyaltyProgram where
  | MARRIOTT
  | HILTON
  | IHG
  | HYATT
  | NONE
deriving DecidableEq, Repr

/-- `UserProfile` dataclass from `core/models.py`. -/
structure UserProfile where
  preferred_temp_min : Int
  preferred_temp_max : Int
  rain_tolerance : String
  flight_budget_soft : Int
  flight_budget_hard : Int
  hotel_budget_min : Int
  hotel_budget_max : Int
  trip_length : TripLength
  flexibility_days : Nat
  hotel_loyalty : LoyaltyProgram
  safety_priority : Int
  comfort_priority : Int
  can_take_red_eye : Bool
  prefers_weekday_departure : Bool
deriving DecidableEq, Repr

/-- `WeatherDay` dataclass from `core/models.py`. -/
structure WeatherDay where
  date : Int
  temp_high : Int
  temp_low : Int
  precipitation_chance : Int
  storm_risk : Bool
  conditions : String
deriving DecidableEq, Repr

/-- `WeatherForecast` dataclass from `core/models.py`. -/
structure WeatherForecast where
  location : String
  forecast_days : List WeatherDay
  storm_periods : List (Int × Int)
deriving DecidableEq, Repr

/-- Placeholder `WeatherDay` used as the default of `List.getD`; every
use of `getD` below is at an index that is in range, so the value never
surfaces (Python would raise `IndexError` only in the same dead cases). -/
def dummyDay : WeatherDay :=
  { date := 0, temp_high := 0, temp_low := 0, precipitation_chance := 0,
    storm_risk := false, conditions := "" }

/-- The per-day qualification test from the body of
`WeatherForecast.get_ideal_periods` (`core/models.py`): temperature in
the preferred range, precipitation below the tolerance threshold, and no
storm risk. -/
def qualifiesDay (profile : UserProfile) (day : WeatherDay) : Bool :=
  (decide (profile.preferred_temp_min ≤ day.temp_high ∧
      day.temp_high ≤ profile.preferred_temp_max)) &&
  (if profile.rain_tolerance = "low" then decide (day.precipitation_chance < 20)
   else if profile.rain_tolerance = "medium" then decide (day.precipitation_chance < 40)
   else true) &&
  !day.storm_risk

/-- `self.forecast_days[self.forecast_days.index(day) - 1].date` from
`get_ideal_periods`: Python `list.index` finds the first index of an
equal element, and an index of `-1` (when that first index is `0`) wraps
around to the last element. -/
def pyPrevDate (days : List WeatherDay) (day : WeatherDay) : Int :=
  let j := days.indexOf day
  if j = 0 then (days.getD (days.length - 1) dummyDay).date
  else (days.getD (j - 1) dummyDay).date

/-- The scanning loop of `WeatherForecast.get_ideal_periods`
(`core/models.py`): iterate over the forecast days with state
`(current_start, consecutive_days, acc)`; `days` stays the full list,
which Python consults for `index(day) - 1` and for the final
`forecast_days[-1]` flush.  The Python `if current_start and ...` test
is a `None` test (a `datetime.date` is always truthy). -/
def idealGo (days : List WeatherDay) (profile : UserProfile) (min_days : Nat) :
    List WeatherDay → Option Int → Nat → List (Int × Int) → List (Int × Int)
  | [], current_start, consecutive_days, acc =>
      match current_start with
      | some cs =>
          if min_days ≤ consecutive_days then
            acc ++ [(cs, (days.getD (days.length - 1) dummyDay).date)]
          else acc
      | none => acc
  | day :: rest, current_start, consecutive_days, acc =>
      if qualifiesDay profile day then
        idealGo days profile min_days rest
          (some (current_start.getD day.date)) (consecutive_days + 1) acc
      else
        match current_start with
        | some cs =>
            if min_days ≤ consecutive_days then
              idealGo days profile min_days rest none 0
                (acc ++ [(cs, pyPrevDate days day)])
            else
              idealGo days profile min_days rest none 0 acc
        | none => idealGo days profile min_days rest none 0 acc

/-- `WeatherForecast.get_ideal_periods` from `core/models.py`. -/
def WeatherForecast.get_ideal_periods (wf : WeatherForecast)
    (profile : UserProfile) (min_days : Nat := 5) : List (Int × Int) :=
  idealGo wf.forecast_days profile min_days wf.forecast_days none 0 []

/-- `FlightOption` dataclass from `core/models.py`. -/
structure FlightOption where
  departure_date : Int
  return_date : Int
  departure_time : String
  return_time : String
  price : Int
  airline : String
  stops : Nat
  duration_hours : ℚ
  is_red_eye_outbound : Bool
  is_red_eye_return : Bool
  departure_day_of_week : String
deriving DecidableEq, Repr

/-- `FlightOption.is_within_budget` from `core/models.py`. -/
def FlightOption.is_within_budget (f : FlightOption) (soft hard : Int) :
    Bool × String :=
  if f.price ≤ soft then (true, "great")
  else if f.price ≤ hard then (true, "acceptable")
  else (false, "too_expensive")

/-- `FlightSearchResult` dataclass from `core/models.py`. -/
structure FlightSearchResult where
  origin : String
  destination : String
  search_date : Int
  options : List FlightOption
deriving DecidableEq, Repr

/-- `HotelOption` dataclass from `core/models.py`. -/
structure HotelOption where
  name : String
  brand : String
  nightly_rate : Int
  total_nights : Nat
  total_cost : Int
  loyalty_program : Option LoyaltyProgram
  star_rating : ℚ
  guest_rating : ℚ
  amenities : List String
  distance_to_beach : ℚ
  cancellation_policy : String
  is_storm_discount : Bool
deriving DecidableEq, Repr

/-- `HotelOption.matches_budget` from `core/models.py`. -/
def HotelOption.matches_budget (h : HotelOption) (min_rate max_rate : Int) : Bool :=
  decide (min_rate ≤ h.nightly_rate ∧ h.nightly_rate ≤ max_rate)

/-- `HotelOption.has_loyalty_match` from `core/models.py`: Python
compares the optional field with the given program, and `None` never
equals an enum member. -/
def HotelOption.has_loyalty_match (h : HotelOption) (program : LoyaltyProgram) : Bool :=
  h.loyalty_program == some program

/-- `HotelSearchResult` dataclass from `core/models.py`. -/
structure HotelSearchResult where
  destination : String
  check_in : Int
  check_out : Int
  options : List HotelOption
deriving DecidableEq, Repr

/-- `HotelSearchResult.filter_by_profile` from `core/models.py`: the
loop with `continue` is a filter by the conjunction of the budget,
safety, and comfort checks. -/
def HotelSearchResult.filter_by_profile (hs : HotelSearchResult)
    (profile : UserProfile) : List HotelOption :=
  hs.options.filter (fun hotel =>
    hotel.matches_budget profile.hotel_budget_min profile.hotel_budget_max &&
    (if 4 ≤ profile.safety_priority then decide ((7 : ℚ)/2 ≤ hotel.star_rating)
     else true) &&
    (if 4 ≤ profile.comfort_priority then decide ((4 : ℚ) ≤ hotel.guest_rating)
     else true))

/-- `TravelWindow` dataclass from `core/models.py` (the
`weather_summary` string is omitted, see the module comment). -/
structure TravelWindow where
  start_date : Int
  end_date : Int
  weather_score : ℚ
  flight_score : ℚ
  hotel_score : ℚ
  overall_score : ℚ
  flight_option : Option FlightOption := none
  hotel_option : Option HotelOption := none
deriving DecidableEq, Repr

instance : Inhabited TravelWindow :=
  ⟨{ start_date := 0, end_date := 0, weather_score := 0, flight_score := 0,
     hotel_score := 0, overall_score := 0 }⟩

/-- `TravelRecommendation` dataclass from `core/models.py` (the
`reasoning` / `why_not_rejected` texts and the `generated_at` timestamp
are omitted, see the module comment). -/
structure TravelRecommendation where
  recommended_window : TravelWindow
  alternatives : List TravelWindow
  profile_used : UserProfile
deriving DecidableEq, Repr

/-- Per-day score: the loop body of `score_weather_compatibility`
(`core/scoring.py`): start at 100, cap by the temperature score
(-5 per degree of deviation, floored at 0), apply the rain-tolerance
multiplier, then the 0.1 storm multiplier. -/
def score_weather_day (profile : UserProfile) (day : WeatherDay) : ℚ :=
  let day_score : ℚ := 100
  let temp_score : ℚ :=
    if profile.preferred_temp_min ≤ day.temp_high ∧
        day.temp_high ≤ profile.preferred_temp_max then 100
    else
      let deviation : Int :=
        if day.temp_high < profile.preferred_temp_min then
          profile.preferred_temp_min - day.temp_high
        else day.temp_high - profile.preferred_temp_max
      max 0 (100 - (deviation : ℚ) * 5)
  let day_score := min day_score temp_score
  let day_score :=
    if profile.rain_tolerance = "low" then
      if 40 ≤ day.precipitation_chance then day_score * (3/10)
      else if 20 ≤ day.precipitation_chance then day_score * (6/10)
      else day_score
    else if profile.rain_tolerance = "medium" then
      if 60 ≤ day.precipitation_chance then day_score * (5/10)
      else if 40 ≤ day.precipitation_chance then day_score * (8/10)
      else day_score
    else day_score
  if day.storm_risk then day_score * (1/10) else day_score

/-- `score_weather_compatibility` from `core/scoring.py` (score
component of the returned tuple): the average of the per-day scores, or
0 on an empty slice. -/
def score_weather_compatibility (weather_days : List WeatherDay)
    (profile : UserProfile) : ℚ :=
  if weather_days = [] then 0
  else (weather_days.map (score_weather_day profile)).sum / (weather_days.length : ℚ)

/-- Price component (40% weight) of `score_flight_option`
(`core/scoring.py`), tiered via `FlightOption.is_within_budget`. -/
def flight_price_score (flight : FlightOption) (profile : UserProfile) : ℚ :=
  let tier := (flight.is_within_budget profile.flight_budget_soft
    profile.flight_budget_hard).2
  if tier = "great" then 100
  else if tier = "acceptable" then 70
  else 0

/-- Duration/convenience component (30% weight) of `score_flight_option`. -/
def flight_duration_score (flight : FlightOption) : ℚ :=
  let duration_score : ℚ :=
    if flight.stops = 0 then 100
    else if flight.stops = 1 then 75
    else 50
  if 12 < flight.duration_hours then duration_score * (8/10) else duration_score

/-- Schedule component (30% weight) of `score_flight_option`. -/
def flight_schedule_score (flight : FlightOption) (profile : UserProfile) : ℚ :=
  let schedule_score : ℚ :=
    if ¬profile.can_take_red_eye ∧
        (flight.is_red_eye_outbound ∨ flight.is_red_eye_return) then 0
    else 100
  if profile.prefers_weekday_departure ∧
      flight.departure_day_of_week ∉
        (["Monday", "Tuesday", "Wednesday", "Thursday"] : List String) then
    schedule_score * (9/10)
  else schedule_score

/-- `score_flight_option` from `core/scoring.py` (score component):
`price*0.4 + duration*0.3 + schedule*0.3`. -/
def score_flight_option (flight : FlightOption) (profile : UserProfile) : ℚ :=
  flight_price_score flight profile * (4/10) +
  flight_duration_score flight * (3/10) +
  flight_schedule_score flight profile * (3/10)

/-- Budget component (40% weight) of `score_hotel_option`
(`core/scoring.py`). -/
def hotel_budget_score (hotel : HotelOption) (profile : UserProfile) : ℚ :=
  if (hotel.nightly_rate : ℚ) ≤ (profile.hotel_budget_max : ℚ) * (7/10) then 100
  else if (hotel.nightly_rate : ℚ) ≤ (profile.hotel_budget_max : ℚ) * (85/100) then 85
  else if hotel.nightly_rate ≤ profile.hotel_budget_max then 70
  else 0

/-- Quality component (35% weight) of `score_hotel_option`. -/
def hotel_quality_score (hotel : HotelOption) : ℚ :=
  (hotel.star_rating / 5) * 50 + (hotel.guest_rating / 5) * 50

/-- Loyalty component (15% weight) of `score_hotel_option`. -/
def hotel_loyalty_score (hotel : HotelOption) (profile : UserProfile) : ℚ :=
  if hotel.has_loyalty_match profile.hotel_loyalty then 100 else 50

/-- Location component (10% weight) of `score_hotel_option`. -/
def hotel_location_score (hotel : HotelOption) : ℚ :=
  max 0 (100 - hotel.distance_to_beach * 20)

/-- The weighted composite of `score_hotel_option` before the
storm-discount penalty. -/
def hotel_composite_score (hotel : HotelOption) (profile : UserProfile) : ℚ :=
  hotel_budget_score hotel profile * (4/10) +
  hotel_quality_score hotel * (35/100) +
  hotel_loyalty_score hotel profile * (15/100) +
  hotel_location_score hotel * (1/10)

/-- `score_hotel_option` from `core/scoring.py` (score component): the
weighted composite, multiplied by 0.7 as the final step when the option
is flagged as storm-discounted. -/
def score_hotel_option (hotel : HotelOption) (profile : UserProfile) : ℚ :=
  if hotel.is_storm_discount then hotel_composite_score hotel profile * (7/10)
  else hotel_composite_score hotel profile

/-- The overall-score assignment performed by `rank_travel_windows`
(`core/scoring.py`) on each window before sorting. -/
def set_overall_score (w : TravelWindow) : TravelWindow :=
  { w with overall_score :=
      w.weather_score * (40/100) + w.flight_score * (35/100) +
      w.hotel_score * (25/100) }

/-- The descending comparison used by
`sorted(windows, key=lambda w: w.overall_score, reverse=True)`. -/
def rankRel (a b : TravelWindow) : Prop :=
  b.overall_score ≤ a.overall_score

instance : DecidableRel rankRel :=
  fun a b => inferInstanceAs (Decidable (b.overall_score ≤ a.overall_score))

instance : IsTotal TravelWindow rankRel :=
  ⟨fun a b => le_total b.overall_score a.overall_score⟩

instance : IsTrans TravelWindow rankRel :=
  ⟨fun _ _ _ h1 h2 => le_trans h2 h1⟩

/-- `rank_travel_windows` from `core/scoring.py`: set each window's
overall score, then sort descending.  Python's `sorted` is the stable
descending sort; `insertionSort rankRel` inserts each earlier element
before equal-scored later ones, which is exactly that (the unique)
stable descending order. -/
def rank_travel_windows (windows : List TravelWindow) : List TravelWindow :=
  (windows.map set_overall_score).insertionSort rankRel

/-- The descending first-component comparison used by
`scored.sort(reverse=True, key=lambda x: x[0])` on `(score, option)`
pairs in `create_travel_windows` (`core/synthesis.py`). -/
def fstRel {α : Type} (a b : ℚ × α) : Prop :=
  b.1 ≤ a.1

instance {α : Type} : DecidableRel (@fstRel α) :=
  fun a b => inferInstanceAs (Decidable (b.1 ≤ a.1))

/-- `get_trip_duration_days` from `core/synthesis.py` (the dictionary
lookup is total over the enum; its default 7 is unreachable). -/
def get_trip_duration_days : TripLength → Nat
  | TripLength.SHORT => 4
  | TripLength.MEDIUM => 7
  | TripLength.LONG => 12
  | TripLength.EXTENDED => 17

/-- The index sequence of Python
`range(0, len(forecast_days) - trip_days, 3)` in the fallback branch of
`generate_candidate_windows` (truncated subtraction matches Python's
empty range for a negative stop). -/
def strideIndices (n trip_days : Nat) : List Nat :=
  (List.range (n - trip_days)).filter (fun i => i % 3 = 0)

/-- The stride-3 fallback branch of `generate_candidate_windows`
(`core/synthesis.py`). -/
def strideFallback (weather : WeatherForecast) (trip_days : Nat) : List (Int × Int) :=
  (strideIndices weather.forecast_days.length trip_days).map (fun i =>
    ((weather.forecast_days.getD i dummyDay).date,
     (weather.forecast_days.getD (i + trip_days - 1) dummyDay).date))

/-- `generate_candidate_windows` from `core/synthesis.py`. -/
def generate_candidate_windows (weather : WeatherForecast)
    (profile : UserProfile) : List (Int × Int) :=
  let trip_days := get_trip_duration_days profile.trip_length
  let ideal_periods := weather.get_ideal_periods profile trip_days
  if ideal_periods = [] then
    strideFallback weather trip_days
  else
    ideal_periods.flatMap (fun p =>
      (p.1, p.2) ::
      (List.range' 1 profile.flexibility_days).flatMap (fun offset =>
        (let new_start := p.1 - (offset : Int)
         if (weather.forecast_days.getD 0 dummyDay).date ≤ new_start then
           [(new_start, new_start + (trip_days : Int))]
         else []) ++
        (let new_start := p.1 + (offset : Int)
         let new_end := new_start + (trip_days : Int)
         if new_end ≤ (weather.forecast_days.getD
             (weather.forecast_days.length - 1) dummyDay).date then
           [(new_start, new_end)]
         else [])))

/-- The `scored.sort(reverse=True, key=lambda x: x[0]); scored[0]` step
of `create_travel_windows` on a list of `(score, option)` pairs, with
`(0, none)` when the list is empty (the `best_... = None; ..._score = 0`
default of the source). -/
def pickBest {α : Type} (scored : List (ℚ × α)) : ℚ × Option α :=
  match scored.insertionSort fstRel with
  | [] => (0, none)
  | p :: _ => (p.1, some p.2)

/-- The per-candidate flight selection of `create_travel_windows`
(`core/synthesis.py`): exact departure-date matches, else matches within
the flexibility window; keep the ones within the hard budget; stable
descending sort by score and take the head, or `(0, none)`. -/
def selectFlight (flights : FlightSearchResult) (profile : UserProfile)
    (start_date : Int) : ℚ × Option FlightOption :=
  let matching_flights := flights.options.filter
    (fun f => f.departure_date == start_date)
  let matching_flights :=
    if matching_flights = [] then
      flights.options.filter
        (fun f => decide (|f.departure_date - start_date| ≤ (profile.flexibility_days : Int)))
    else matching_flights
  let in_budget_flights := matching_flights.filter
    (fun f => decide (f.price ≤ profile.flight_budget_hard))
  pickBest (in_budget_flights.map (fun f => (score_flight_option f profile, f)))

/-- The per-candidate hotel selection of `create_travel_windows`
(`core/synthesis.py`): profile-filtered options, stable descending sort
by score, head or `(0, none)`.  It reads nothing from the candidate
window. -/
def selectHotel (hotels : HotelSearchResult) (profile : UserProfile) :
    ℚ × Option HotelOption :=
  pickBest ((hotels.filter_by_profile profile).map
    (fun h => (score_hotel_option h profile, h)))

/-- `create_travel_windows` from `core/synthesis.py`: candidates whose
date range covers no forecast day are skipped (`filterMap`); the rest
become scored `TravelWindow`s. -/
def create_travel_windows (candidates : List (Int × Int))
    (weather : WeatherForecast) (flights : FlightSearchResult)
    (hotels : HotelSearchResult) (profile : UserProfile) : List TravelWindow :=
  candidates.filterMap (fun c =>
    let weather_days := weather.forecast_days.filter
      (fun day => decide (c.1 ≤ day.date ∧ day.date ≤ c.2))
    if weather_days = [] then none
    else
      let fsel := selectFlight flights profile c.1
      let hsel := selectHotel hotels profile
      some { start_date := c.1, end_date := c.2,
             weather_score := score_weather_compatibility weather_days profile,
             flight_score := fsel.1, hotel_score := hsel.1,
             overall_score := 0,
             flight_option := fsel.2, hotel_option := hsel.2 })

/-- The `ranked_windows` intermediate of `synthesize_recommendation`
(`core/synthesis.py`): generate candidates, build and score windows,
rank them. -/
def ranked_windows (weather : WeatherForecast) (flights : FlightSearchResult)
    (hotels : HotelSearchResult) (profile : UserProfile) : List TravelWindow :=
  rank_travel_windows (create_travel_windows
    (generate_candidate_windows weather profile) weather flights hotels profile)

/-- `synthesize_recommendation` from `core/synthesis.py`: the raised
`ValueError("No viable travel windows found")` becomes `Except.error`;
otherwise the top-ranked window is recommended with the next (at most)
three as alternatives. -/
def synthesize_recommendation (weather : WeatherForecast)
    (flights : FlightSearchResult) (hotels : HotelSearchResult)
    (profile : UserProfile) : Except String TravelRecommendation :=
  match ranked_windows weather flights hotels profile with
  | [] => Except.error "No viable travel windows found"
  | recommended :: rest =>
      Except.ok { recommended_window := recommended,
                  alternatives := rest.take 3,
                  profile_used := profile }

/-! ### Concrete inputs used by the witness theorems -/

/-- The `UserProfile.example()` profile from `core/models.py`
(7-day trips, 3 flexible days, medium rain tolerance). -/
def cProfile : UserProfile :=
  { preferred_temp_min := 72, preferred_temp_max := 85,
    rain_tolerance := "medium",
    flight_budget_soft := 500, flight_budget_hard := 750,
    hotel_budget_min := 150, hotel_budget_max := 300,
    trip_length := TripLength.MEDIUM, flexibility_days := 3,
    hotel_loyalty := LoyaltyProgram.MARRIOTT, safety_priority := 4,
    comfort_priority := 4, can_take_red_eye := false,
    prefers_weekday_departure := true }

/-- A concrete forecast day: date `d`, high temperature `t`, 10%
precipitation, storm flag `storm`. -/
def cDay (d : Int) (t : Int) (storm : Bool) : WeatherDay :=
  { date := d, temp_high := t, temp_low := 60, precipitation_chance := 10,
    storm_risk := storm, conditions := if storm then "stormy" else "sunny" }

/-- A storm day with otherwise perfect conditions. -/
def cStormDay : WeatherDay := cDay 0 80 true

/-- Ten contiguous days, all ideal for `cProfile`. -/
def cAllGoodForecast : WeatherForecast :=
  { location := "Maui",
    forecast_days := [cDay 0 80 false, cDay 1 80 false, cDay 2 80 false,
      cDay 3 80 false, cDay 4 80 false, cDay 5 80 false, cDay 6 80 false,
      cDay 7 80 false, cDay 8 80 false, cDay 9 80 false],
    storm_periods := [] }

/-- Ten contiguous days whose single maximal qualifying run for
`cProfile` is days 2..8 (length 7). -/
def cRun7Forecast : WeatherForecast :=
  { location := "Maui",
    forecast_days := [cDay 0 100 false, cDay 1 100 false, cDay 2 80 false,
      cDay 3 80 false, cDay 4 80 false, cDay 5 80 false, cDay 6 80 false,
      cDay 7 80 false, cDay 8 80 false, cDay 9 100 false],
    storm_periods := [] }

/-- Ten contiguous days whose single maximal qualifying run for
`cProfile` is days 2..7 (length 6, one short of the 7-day trip). -/
def cRun6Forecast : WeatherForecast :=
  { location := "Maui",
    forecast_days := [cDay 0 100 false, cDay 1 100 false, cDay 2 80 false,
      cDay 3 80 false, cDay 4 80 false, cDay 5 80 false, cDay 6 80 false,
      cDay 7 80 false, cDay 8 100 false, cDay 9 100 false],
    storm_periods := [] }

/-- Exactly seven contiguous days, none qualifying for `cProfile`. -/
def cBadForecast7 : WeatherForecast :=
  { location := "Maui",
    forecast_days := [cDay 0 100 false, cDay 1 100 false, cDay 2 100 false,
      cDay 3 100 false, cDay 4 100 false, cDay 5 100 false, cDay 6 100 false],
    storm_periods := [] }

/-- A nonstop Monday flight priced exactly at `cProfile`'s hard
budget. -/
def cFlightHard : FlightOption :=
  { departure_date := 0, return_date := 6, departure_time := "9:00",
    return_time := "17:00", price := 750, airline := "Hawaiian", stops := 0,
    duration_hours := 6, is_red_eye_outbound := false,
    is_red_eye_return := false, departure_day_of_week := "Monday" }

/-- A flight search result holding only `cFlightHard`. -/
def cFlights : FlightSearchResult :=
  { origin := "SFO", destination := "OGG", search_date := 0,
    options := [cFlightHard] }

/-- A hotel whose composite score against `cProfile` is exactly 100,
flagged as storm-discounted. -/
def cHotelPerfect : HotelOption :=
  { name := "Grand Wailea", brand := "Marriott", nightly_rate := 200,
    total_nights := 7, total_cost := 1400,
    loyalty_program := some LoyaltyProgram.MARRIOTT, star_rating := 5,
    guest_rating := 5, amenities := ["pool"], distance_to_beach := 0,
    cancellation_policy := "free", is_storm_discount := true }

/-- A hotel search result holding only `cHotelPerfect`. -/
def cHotels : HotelSearchResult :=
  { destination := "OGG", check_in := 0, check_out := 7,
    options := [cHotelPerfect] }

/-- The first window `create_travel_windows` builds from candidates
`[(0, 6), (1, 7)]` over `cAllGoodForecast`, `cFlights`, `cHotels`,
`cProfile`. -/
def cW1 : TravelWindow :=
  { start_date := 0, end_date := 6, weather_score := 100, flight_score := 88,
    hotel_score := 70, overall_score := 0, flight_option := some cFlightHard,
    hotel_option := some cHotelPerfect }

/-- The second window of the same call (shifted dates, same hotel). -/
def cW2 : TravelWindow :=
  { start_date := 1, end_date := 7, weather_score := 100, flight_score := 88,
    hotel_score := 70, overall_score := 0, flight_option := some cFlightHard,
    hotel_option := some cHotelPerfect }

/-- Invariant of the periods emitted by the `get_ideal_periods` scan
over a contiguous forecast starting at date `d0` with `n` days and
threshold `m`: the period starts no earlier than the first day, ends no
later than the last day, and covers at least `m` days. -/
def GoodPeriod (d0 : Int) (n m : Nat) (q : Int × Int) : Prop :=
  d0 ≤ q.1 ∧ q.2 ≤ d0 + (n : Int) - 1 ∧ q.1 + (m : Int) - 1 ≤ q.2

/-! ### Bounds of the per-day weather score -/

theorem score_weather_day_bounds (p : UserProfile) (d : WeatherDay) :
    0 ≤ score_weather_day p d ∧ score_weather_day p d ≤ 100 ∧
      (d.storm_risk = true → score_weather_day p d ≤ 10) := by
  unfold score_weather_day
  set T := (if p.preferred_temp_min ≤ d.temp_high ∧ d.temp_high ≤ p.preferred_temp_max
    then (100 : ℚ)
    else max 0 (100 - ((if d.temp_high < p.preferred_temp_min then
      p.preferred_temp_min - d.temp_high else d.temp_high - p.preferred_temp_max : Int) : ℚ) * 5)) with hT
  have hT0 : 0 ≤ T := by
    rw [hT]; split
    · norm_num
    · exact le_max_left 0 _
  have hM0 : 0 ≤ min 100 T := le_min (by norm_num) hT0
  have hM1 : min (100 : ℚ) T ≤ 100 := min_le_left _ _
  set M := min (100 : ℚ) T with hM
  refine ⟨?_, ?_, ?_⟩
  · split_ifs <;> nlinarith
  · split_ifs <;> nlinarith
  · intro hs
    rw [hs]
    simp only [if_true]
    split_ifs <;> nlinarith

/-- C5: a storm-flagged day scores strictly below 15 — in fact at most
10, since the 0.1 storm multiplier is applied last to a value at most
100 — and a single-day window made of that day scores at most 10. -/
theorem storm_day_dominates (p : UserProfile) (d : WeatherDay)
    (hs : d.storm_risk = true) :
    score_weather_day p d < 15 ∧ score_weather_day p d ≤ 10 ∧
      score_weather_compatibility [d] p ≤ 10 := by
  have h10 := (score_weather_day_bounds p d).2.2 hs
  have hc : score_weather_compatibility [d] p = score_weather_day p d := by
    simp [score_weather_compatibility]
  exact ⟨lt_of_le_of_lt h10 (by norm_num), h10, hc ▸ h10⟩

theorem score_weather_compatibility_bounds (days : List WeatherDay)
    (p : UserProfile) :
    0 ≤ score_weather_compatibility days p ∧
      score_weather_compatibility days p ≤ 100 := by
  unfold score_weather_compatibility
  split_ifs with h
  · norm_num
  · have hlen : 0 < (days.length : ℚ) := by
      have h1 : 0 < days.length := List.length_pos.mpr h
      exact_mod_cast h1
    constructor
    · apply div_nonneg _ hlen.le
      apply List.sum_nonneg
      intro x hx
      obtain ⟨d, _, rfl⟩ := List.mem_map.mp hx
      exact (score_weather_day_bounds p d).1
    · rw [div_le_iff₀ hlen]
      have hb : ∀ x ∈ days.map (score_weather_day p), x ≤ (100 : ℚ) := by
        intro x hx
        obtain ⟨d, _, rfl⟩ := List.mem_map.mp hx
        exact (score_weather_day_bounds p d).2.1
      have := List.sum_le_card_nsmul _ _ hb
      simpa [List.length_map, nsmul_eq_mul, mul_comm] using this

/-! ### Flight score tiers and bounds -/

theorem flight_price_tier_great (f : FlightOption) (p : UserProfile)
    (h : f.price ≤ p.flight_budget_soft) : flight_price_score f p = 100 := by
  simp [flight_price_score, FlightOption.is_within_budget, h]

theorem flight_price_tier_acceptable (f : FlightOption) (p : UserProfile)
    (h1 : p.flight_budget_soft < f.price) (h2 : f.price ≤ p.flight_budget_hard) :
    flight_price_score f p = 70 := by
  simp [flight_price_score, FlightOption.is_within_budget, not_le.mpr h1, h2]

theorem flight_price_tier_over (f : FlightOption) (p : UserProfile)
    (hsh : p.flight_budget_soft ≤ p.flight_budget_hard)
    (h : p.flight_budget_hard < f.price) : flight_price_score f p = 0 := by
  have h1 : ¬ f.price ≤ p.flight_budget_soft := not_le.mpr (lt_of_le_of_lt hsh h)
  simp [flight_price_score, FlightOption.is_within_budget, h1, not_le.mpr h]

theorem flight_price_score_bounds (f : FlightOption) (p : UserProfile) :
    0 ≤ flight_price_score f p ∧ flight_price_score f p ≤ 100 := by
  by_cases h1 : f.price ≤ p.flight_budget_soft
  · rw [flight_price_tier_great f p h1]; norm_num
  · by_cases h2 : f.price ≤ p.flight_budget_hard
    · rw [flight_price_tier_acceptable f p (not_le.mp h1) h2]; norm_num
    · simp [flight_price_score, FlightOption.is_within_budget, h1, h2]

theorem flight_duration_score_bounds (f : FlightOption) :
    0 ≤ flight_duration_score f ∧ flight_duration_score f ≤ 100 := by
  unfold flight_duration_score
  split_ifs <;> norm_num

theorem flight_schedule_score_bounds (f : FlightOption) (p : UserProfile) :
    0 ≤ flight_schedule_score f p ∧ flight_schedule_score f p ≤ 100 := by
  unfold flight_schedule_score
  split_ifs <;> norm_num

theorem score_flight_option_bounds (f : FlightOption) (p : UserProfile) :
    0 ≤ score_flight_option f p ∧ score_flight_option f p ≤ 100 := by
  have h1 := flight_price_score_bounds f p
  have h2 := flight_duration_score_bounds f
  have h3 := flight_schedule_score_bounds f p
  unfold score_flight_option
  constructor <;> nlinarith

/-! ### Hotel score components and bounds -/

theorem hotel_budget_score_bounds (h : HotelOption) (p : UserProfile) :
    0 ≤ hotel_budget_score h p ∧ hotel_budget_score h p ≤ 100 := by
  unfold hotel_budget_score
  split_ifs <;> norm_num

theorem hotel_quality_score_bounds (h : HotelOption)
    (hstar : 0 ≤ h.star_rating ∧ h.star_rating ≤ 5)
    (hguest : 0 ≤ h.guest_rating ∧ h.guest_rating ≤ 5) :
    0 ≤ hotel_quality_score h ∧ hotel_quality_score h ≤ 100 := by
  unfold hotel_quality_score
  constructor <;> nlinarith [hstar.1, hstar.2, hguest.1, hguest.2]

theorem hotel_loyalty_score_bounds (h : HotelOption) (p : UserProfile) :
    0 ≤ hotel_loyalty_score h p ∧ hotel_loyalty_score h p ≤ 100 := by
  unfold hotel_loyalty_score
  split_ifs <;> norm_num

theorem hotel_location_score_bounds (h : HotelOption)
    (hbeach : 0 ≤ h.distance_to_beach) :
    0 ≤ hotel_location_score h ∧ hotel_location_score h ≤ 100 := by
  unfold hotel_location_score
  constructor
  · exact le_max_left 0 _
  · apply max_le (by norm_num)
    nlinarith

theorem hotel_composite_score_bounds (h : HotelOption) (p : UserProfile)
    (hstar : 0 ≤ h.star_rating ∧ h.star_rating ≤ 5)
    (hguest : 0 ≤ h.guest_rating ∧ h.guest_rating ≤ 5)
    (hbeach : 0 ≤ h.distance_to_beach) :
    0 ≤ hotel_composite_score h p ∧ hotel_composite_score h p ≤ 100 := by
  have h1 := hotel_budget_score_bounds h p
  have h2 := hotel_quality_score_bounds h hstar hguest
  have h3 := hotel_loyalty_score_bounds h p
  have h4 := hotel_location_score_bounds h hbeach
  unfold hotel_composite_score
  constructor <;> nlinarith

theorem score_hotel_option_bounds (h : HotelOption) (p : UserProfile)
    (hstar : 0 ≤ h.star_rating ∧ h.star_rating ≤ 5)
    (hguest : 0 ≤ h.guest_rating ∧ h.guest_rating ≤ 5)
    (hbeach : 0 ≤ h.distance_to_beach) :
    0 ≤ score_hotel_option h p ∧ score_hotel_option h p ≤ 100 := by
  have hc := hotel_composite_score_bounds h p hstar hguest hbeach
  unfold score_hotel_option
  split_ifs <;> constructor <;> nlinarith

/-- C7: given the data-model field ranges, each of the three scorers
returns a value in the closed interval `[0, 100]`. -/
theorem scorers_bounded (p : UserProfile) (days : List WeatherDay)
    (f : FlightOption) (h : HotelOption)
    (hprec : ∀ d ∈ days, 0 ≤ d.precipitation_chance ∧ d.precipitation_chance ≤ 100)
    (hstar : 0 ≤ h.star_rating ∧ h.star_rating ≤ 5)
    (hguest : 0 ≤ h.guest_rating ∧ h.guest_rating ≤ 5)
    (hbeach : 0 ≤ h.distance_to_beach) :
    (0 ≤ score_weather_compatibility days p ∧
       score_weather_compatibility days p ≤ 100) ∧
    (0 ≤ score_flight_option f p ∧ score_flight_option f p ≤ 100) ∧
    (0 ≤ score_hotel_option h p ∧ score_hotel_option h p ≤ 100) :=
  ⟨score_weather_compatibility_bounds days p, score_flight_option_bounds f p,
    score_hotel_option_bounds h p hstar hguest hbeach⟩

/-- C6: for a storm-discounted hotel the scorer multiplies the full
weighted composite by 0.7 as the final step; a composite of 100 yields
exactly 70. -/
theorem storm_discount_scales_composite (h : HotelOption) (p : UserProfile)
    (hd : h.is_storm_discount = true) :
    score_hotel_option h p = hotel_composite_score h p * (7/10) ∧
      (hotel_composite_score h p = 100 → score_hotel_option h p = 70) := by
  constructor
  · simp [score_hotel_option, hd]
  · intro hc
    simp [score_hotel_option, hd, hc]
    norm_num

/-! ### Selection helpers: membership facts -/

theorem pickBest_mem {α : Type} (scored : List (ℚ × α)) (x : α)
    (hx : (pickBest scored).2 = some x) : ∃ q, (q, x) ∈ scored := by
  unfold pickBest at hx
  rcases h : scored.insertionSort fstRel with _ | ⟨p0, t⟩
  · rw [h] at hx
    simp at hx
  · rw [h] at hx
    simp at hx
    have hp0 : p0 ∈ scored.insertionSort fstRel := h ▸ List.mem_cons_self p0 t
    rw [List.mem_insertionSort] at hp0
    exact ⟨p0.1, by rwa [← hx, Prod.mk.eta]⟩

theorem selectFlight_in_budget (flights : FlightSearchResult) (p : UserProfile)
    (sd : Int) (f : FlightOption)
    (hf : (selectFlight flights p sd).2 = some f) :
    f.price ≤ p.flight_budget_hard := by
  simp only [selectFlight] at hf
  obtain ⟨q, hq⟩ := pickBest_mem _ _ hf
  obtain ⟨f', hf', heq⟩ := List.mem_map.mp hq
  injection heq with h1 h2
  subst h2
  exact of_decide_eq_true (List.mem_filter.mp hf').2

theorem create_travel_windows_fields (candidates : List (Int × Int))
    (weather : WeatherForecast) (flights : FlightSearchResult)
    (hotels : HotelSearchResult) (p : UserProfile) (w : TravelWindow)
    (hw : w ∈ create_travel_windows candidates weather flights hotels p) :
    w.flight_option = (selectFlight flights p w.start_date).2 ∧
    w.flight_score = (selectFlight flights p w.start_date).1 ∧
    w.hotel_option = (selectHotel hotels p).2 ∧
    w.hotel_score = (selectHotel hotels p).1 := by
  simp only [create_travel_windows] at hw
  obtain ⟨c, hc, heq⟩ := List.mem_filterMap.mp hw
  by_cases hemp : (weather.forecast_days.filter
      (fun day => decide (c.1 ≤ day.date ∧ day.date ≤ c.2))) = []
  · rw [if_pos hemp] at heq
    exact absurd heq (by simp)
  · rw [if_neg hemp] at heq
    injection heq with h
    subst h
    exact ⟨rfl, rfl, rfl, rfl⟩

/-- C4: the flight scorer's price component is 100 up to the soft
budget, 70 up to the hard budget (so a flight at exactly the hard budget
contributes `70 × 0.4 = 28` to the total), 0 above the hard budget (for
a well-formed profile, soft ≤ hard); and a window built by
`create_travel_windows` never carries a selected flight priced above the
hard budget. -/
theorem flight_price_tiers_and_exclusion :
    (∀ (f : FlightOption) (p : UserProfile),
      (f.price ≤ p.flight_budget_soft → flight_price_score f p = 100) ∧
      (p.flight_budget_soft < f.price → f.price ≤ p.flight_budget_hard →
        flight_price_score f p = 70 ∧
        score_flight_option f p =
          28 + flight_duration_score f * (3/10) +
            flight_schedule_score f p * (3/10)) ∧
      (p.flight_budget_soft ≤ p.flight_budget_hard →
        p.flight_budget_hard < f.price → flight_price_score f p = 0)) ∧
    (∀ (candidates : List (Int × Int)) (weather : WeatherForecast)
        (flights : FlightSearchResult) (hotels : HotelSearchResult)
        (p : UserProfile) (w : TravelWindow),
      w ∈ create_travel_windows candidates weather flights hotels p →
      ∀ f, w.flight_option = some f → f.price ≤ p.flight_budget_hard) := by
  constructor
  · intro f p
    refine ⟨fun h => flight_price_tier_great f p h,
      fun h1 h2 => ⟨flight_price_tier_acceptable f p h1 h2, ?_⟩,
      fun hsh h => flight_price_tier_over f p hsh h⟩
    unfold score_flight_option
    rw [flight_price_tier_acceptable f p h1 h2]
    norm_num
  · intro candidates weather flights hotels p w hw f hf
    have hfo := (create_travel_windows_fields candidates weather flights hotels p w hw).1
    rw [hfo] at hf
    exact selectFlight_in_budget flights p w.start_date f hf

/-- C9: the selected hotel and the hotel sub-score of a constructed
window do not depend on the window's dates: any two windows built in the
same `create_travel_windows` call agree on both. -/
theorem hotel_selection_window_independent (candidates : List (Int × Int))
    (weather : WeatherForecast) (flights : FlightSearchResult)
    (hotels : HotelSearchResult) (p : UserProfile) (w1 w2 : TravelWindow)
    (h1 : w1 ∈ create_travel_windows candidates weather flights hotels p)
    (h2 : w2 ∈ create_travel_windows candidates weather flights hotels p) :
    w1.hotel_option = w2.hotel_option ∧ w1.hotel_score = w2.hotel_score := by
  have f1 := create_travel_windows_fields candidates weather flights hotels p w1 h1
  have f2 := create_travel_windows_fields candidates weather flights hotels p w2 h2
  exact ⟨f1.2.2.1.trans f2.2.2.1.symm, f1.2.2.2.trans f2.2.2.2.symm⟩

/-! ### Ranking: permutation, sortedness, stability -/

theorem rank_travel_windows_eq_nil_iff (l : List TravelWindow) :
    rank_travel_windows l = [] ↔ l = [] := by
  unfold rank_travel_windows
  constructor
  · intro h
    have hlen := congrArg List.length h
    rw [List.length_insertionSort, List.length_map] at hlen
    exact List.length_eq_zero.mp hlen
  · rintro rfl
    rfl

/-- C1: `rank_travel_windows` returns a permutation of the input with
each window's overall score set to exactly
`weather×0.40 + flight×0.35 + hotel×0.25` and nothing else changed,
sorted in descending order of overall score, and stably: for any score
value, the windows carrying it appear in their input order. -/
theorem rank_travel_windows_spec (windows : List TravelWindow) :
    (rank_travel_windows windows).Perm
      (windows.map (fun w => { w with overall_score :=
        w.weather_score * (40/100) + w.flight_score * (35/100) +
          w.hotel_score * (25/100) })) ∧
    (rank_travel_windows windows).Sorted
      (fun a b => b.overall_score ≤ a.overall_score) ∧
    (∀ v : ℚ,
      (rank_travel_windows windows).filter
          (fun w => decide (w.overall_score = v)) =
        (windows.map (fun w => { w with overall_score :=
          w.weather_score * (40/100) + w.flight_score * (35/100) +
            w.hotel_score * (25/100) })).filter
          (fun w => decide (w.overall_score = v))) := by
  have hmapeq : windows.map (fun w => { w with overall_score :=
      w.weather_score * (40/100) + w.flight_score * (35/100) +
        w.hotel_score * (25/100) }) = windows.map set_overall_score := rfl
  rw [hmapeq]
  refine ⟨List.perm_insertionSort rankRel _, List.sorted_insertionSort rankRel _, ?_⟩
  intro v
  set m := windows.map set_overall_score with hm
  set P : TravelWindow → Bool := fun w => decide (w.overall_score = v) with hP
  have hallv : ∀ x ∈ m.filter P, x.overall_score = v := by
    intro x hx
    exact of_decide_eq_true (List.mem_filter.mp hx).2
  have hpair : (m.filter P).Pairwise rankRel := by
    apply List.pairwise_of_forall_mem_list
    intro x hx y hy
    unfold rankRel
    rw [hallv x hx, hallv y hy]
  have hsub : List.Sublist (m.filter P) (m.insertionSort rankRel) :=
    List.sublist_insertionSort hpair (List.filter_sublist m)
  have hsub2 : List.Sublist (m.filter P) ((m.insertionSort rankRel).filter P) := by
    have h1 := hsub.filter P
    rwa [List.filter_eq_self.mpr (fun a ha => (List.mem_filter.mp ha).2)] at h1
  have hperm : ((m.insertionSort rankRel).filter P).Perm (m.filter P) :=
    (List.perm_insertionSort rankRel m).filter P
  exact (hsub2.eq_of_length hperm.length_eq.symm).symm

/-! ### Synthesis: failure is exactly the empty ranking -/

theorem create_travel_windows_ne_nil (candidates : List (Int × Int))
    (weather : WeatherForecast) (flights : FlightSearchResult)
    (hotels : HotelSearchResult) (p : UserProfile) (c : Int × Int)
    (d : WeatherDay) (hc : c ∈ candidates) (hd : d ∈ weather.forecast_days)
    (h1 : c.1 ≤ d.date) (h2 : d.date ≤ c.2) :
    create_travel_windows candidates weather flights hotels p ≠ [] := by
  intro hnil
  have hall := List.filterMap_eq_nil_iff.mp hnil c hc
  have hdf : d ∈ weather.forecast_days.filter
      (fun day => decide (c.1 ≤ day.date ∧ day.date ≤ c.2)) :=
    List.mem_filter.mpr ⟨hd, by simp [h1, h2]⟩
  have hne := List.ne_nil_of_mem hdf
  simp only [] at hall
  rw [if_neg hne] at hall
  exact Option.some_ne_none _ hall

/-- C8: `synthesize_recommendation` returns the distinct error exactly
when the ranked window list is empty; when some candidate window covers
at least one forecast day it returns a recommendation whose recommended
window is the top-ranked one and whose alternatives are the next at most
three, in rank order. -/
theorem synthesize_error_iff (weather : WeatherForecast)
    (flights : FlightSearchResult) (hotels : HotelSearchResult)
    (p : UserProfile) :
    ((∃ e, synthesize_recommendation weather flights hotels p =
        Except.error e) ↔ ranked_windows weather flights hotels p = []) ∧
    ((∃ c ∈ generate_candidate_windows weather p,
        ∃ d ∈ weather.forecast_days, c.1 ≤ d.date ∧ d.date ≤ c.2) →
      synthesize_recommendation weather flights hotels p =
        Except.ok { recommended_window :=
                      (ranked_windows weather flights hotels p).headI,
                    alternatives :=
                      (ranked_windows weather flights hotels p).tail.take 3,
                    profile_used := p }) := by
  constructor
  · unfold synthesize_recommendation
    rcases h : ranked_windows weather flights hotels p with _ | ⟨r, rest⟩
    · simp
    · simp
  · rintro ⟨c, hc, d, hd, hle1, hle2⟩
    have hne := create_travel_windows_ne_nil
      (generate_candidate_windows weather p) weather flights hotels p c d hc hd hle1 hle2
    have hrne : ranked_windows weather flights hotels p ≠ [] := by
      unfold ranked_windows
      rw [Ne, rank_travel_windows_eq_nil_iff]
      exact hne
    unfold synthesize_recommendation
    rcases h : ranked_windows weather flights hotels p with _ | ⟨r, rest⟩
    · exact absurd h hrne
    · simp

/-! ### Witness facts at concrete inputs -/

theorem tier_acc_ne_great : ("acceptable" : String) ≠ "great" := by decide

theorem create_windows_concrete :
    create_travel_windows [((0:Int),(6:Int)), ((1:Int),(7:Int))]
      cAllGoodForecast cFlights cHotels cProfile = [cW1, cW2] := by
  norm_num [tier_acc_ne_great, create_travel_windows, selectFlight,
    selectHotel, pickBest, score_weather_compatibility, score_weather_day,
    score_flight_option, flight_price_score, flight_duration_score,
    flight_schedule_score, score_hotel_option, hotel_composite_score,
    hotel_budget_score, hotel_quality_score, hotel_loyalty_score,
    hotel_location_score, HotelSearchResult.filter_by_profile,
    HotelOption.matches_budget, HotelOption.has_loyalty_match,
    FlightOption.is_within_budget, cAllGoodForecast, cFlights, cHotels,
    cProfile, cDay, cFlightHard, cHotelPerfect, cW1, cW2, List.filter,
    List.filterMap, List.insertionSort, List.orderedInsert, fstRel,
    dummyDay, List.cons_ne_nil, reduceCtorEq]

theorem storm_day_dominates_witness :
    score_weather_day cProfile cStormDay < 15 ∧
    score_weather_day cProfile cStormDay ≤ 10 ∧
    score_weather_compatibility [cStormDay] cProfile ≤ 10 :=
  storm_day_dominates cProfile cStormDay rfl

theorem storm_discount_scales_composite_witness :
    score_hotel_option cHotelPerfect cProfile =
      hotel_composite_score cHotelPerfect cProfile * (7/10) ∧
    score_hotel_option cHotelPerfect cProfile = 70 := by
  refine ⟨(storm_discount_scales_composite cHotelPerfect cProfile rfl).1,
    (storm_discount_scales_composite cHotelPerfect cProfile rfl).2 ?_⟩
  norm_num [hotel_composite_score, hotel_budget_score, hotel_quality_score,
    hotel_loyalty_score, hotel_location_score, cHotelPerfect, cProfile,
    HotelOption.has_loyalty_match]

theorem scorers_bounded_witness :
    (0 ≤ score_weather_compatibility [cStormDay] cProfile ∧
       score_weather_compatibility [cStormDay] cProfile ≤ 100) ∧
    (0 ≤ score_flight_option cFlightHard cProfile ∧
       score_flight_option cFlightHard cProfile ≤ 100) ∧
    (0 ≤ score_hotel_option cHotelPerfect cProfile ∧
       score_hotel_option cHotelPerfect cProfile ≤ 100) :=
  scorers_bounded cProfile [cStormDay] cFlightHard cHotelPerfect
    (by decide) (by norm_num [cHotelPerfect]) (by norm_num [cHotelPerfect])
    (by norm_num [cHotelPerfect])

theorem flight_price_tiers_and_exclusion_witness :
    flight_price_score cFlightHard cProfile = 70 ∧
    cFlightHard.price ≤ cProfile.flight_budget_hard := by
  constructor
  · exact ((flight_price_tiers_and_exclusion.1 cFlightHard cProfile).2.1
      (by decide) (by decide)).1
  · refine flight_price_tiers_and_exclusion.2
      [((0:Int),(6:Int)), ((1:Int),(7:Int))] cAllGoodForecast cFlights
      cHotels cProfile cW1 ?_ cFlightHard rfl
    rw [create_windows_concrete]
    exact List.mem_cons_self _ _

theorem hotel_selection_window_independent_witness :
    cW1.hotel_option = cW2.hotel_option ∧ cW1.hotel_score = cW2.hotel_score :=
  hotel_selection_window_independent [((0:Int),(6:Int)), ((1:Int),(7:Int))]
    cAllGoodForecast cFlights cHotels cProfile cW1 cW2
    (by rw [create_windows_concrete]; exact List.mem_cons_self _ _)
    (by rw [create_windows_concrete]; simp)

theorem synthesize_error_iff_witness :
    synthesize_recommendation cAllGoodForecast cFlights cHotels cProfile =
      Except.ok { recommended_window :=
                    (ranked_windows cAllGoodForecast cFlights cHotels cProfile).headI,
                  alternatives :=
                    (ranked_windows cAllGoodForecast cFlights cHotels cProfile).tail.take 3,
                  profile_used := cProfile } :=
  (synthesize_error_iff cAllGoodForecast cFlights cHotels cProfile).2 (by decide)

/-! ### The stride-3 fallback and its boundary gap -/

/-- C10: the stride-3 fallback never uses the last feasible start index
`length - trip_days`; in particular, on a forecast of exactly
`trip_days` days with no qualifying run, candidate generation is empty
and `synthesize_recommendation` fails, although one window of the
required length would fit exactly. -/
theorem stride_fallback_misses_last :
    (∀ n trip_days : Nat, ∀ i ∈ strideIndices n trip_days,
      i < n - trip_days ∧ i ≠ n - trip_days) ∧
    (∀ (weather : WeatherForecast) (p : UserProfile),
      weather.forecast_days.length = get_trip_duration_days p.trip_length →
      weather.get_ideal_periods p (get_trip_duration_days p.trip_length) = [] →
      generate_candidate_windows weather p = [] ∧
      ∀ flights hotels, synthesize_recommendation weather flights hotels p =
        Except.error "No viable travel windows found") := by
  constructor
  · intro n trip_days i hi
    have hlt : i < n - trip_days :=
      List.mem_range.mp (List.mem_filter.mp hi).1
    exact ⟨hlt, Nat.ne_of_lt hlt⟩
  · intro weather p hlen hideal
    have hgen : generate_candidate_windows weather p = [] := by
      unfold generate_candidate_windows
      rw [if_pos hideal]
      unfold strideFallback strideIndices
      rw [hlen]
      simp
    refine ⟨hgen, ?_⟩
    intro flights hotels
    have hr : ranked_windows weather flights hotels p = [] := by
      unfold ranked_windows
      rw [hgen]
      rfl
    unfold synthesize_recommendation
    rw [hr]

theorem stride_fallback_misses_last_witness :
    ((0 ∈ strideIndices 10 7) ∧ 0 < 10 - 7 ∧ (0 : Nat) ≠ 10 - 7) ∧
    (generate_candidate_windows cBadForecast7 cProfile = [] ∧
      synthesize_recommendation cBadForecast7 cFlights cHotels cProfile =
        Except.error "No viable travel windows found") := by
  have h0 : (0 : Nat) ∈ strideIndices 10 7 := by decide
  have h1 := stride_fallback_misses_last.1 10 7 0 h0
  have h2 := stride_fallback_misses_last.2 cBadForecast7 cProfile
    (by decide) (by decide)
  exact ⟨⟨h0, h1.1, h1.2⟩, h2.1, h2.2 cFlights cHotels⟩

/-! ### Contiguous forecasts: basic consequences -/

theorem contiguous_nodup (days : List WeatherDay) (d0 : Int)
    (Hd : ∀ j (hj : j < days.length), days[j].date = d0 + j) :
    days.Nodup := by
  rw [List.nodup_iff_injective_getElem]
  intro i j hij
  have h1 := Hd i.1 i.2
  have h2 := Hd j.1 j.2
  have h3 : d0 + (i.1 : Int) = d0 + (j.1 : Int) := by
    rw [← h1, ← h2]
    exact congrArg WeatherDay.date hij
  have h4 : i.1 = j.1 := by omega
  exact Fin.ext h4

theorem contiguous_indexOf (days : List WeatherDay) (d0 : Int)
    (Hd : ∀ j (hj : j < days.length), days[j].date = d0 + j)
    (i : Nat) (hi : i < days.length) :
    days.indexOf days[i] = i := by
  have hnd := contiguous_nodup days d0 Hd
  have hmem : days[i] ∈ days := List.getElem_mem hi
  have hlt : days.indexOf days[i] < days.length := List.indexOf_lt_length.mpr hmem
  have hget : days[days.indexOf days[i]] = days[i] := List.getElem_indexOf hlt
  exact (hnd.getElem_inj_iff).mp hget

theorem contiguous_pyPrevDate (days : List WeatherDay) (d0 : Int)
    (Hd : ∀ j (hj : j < days.length), days[j].date = d0 + j)
    (i : Nat) (hi : i < days.length) (h1 : 1 ≤ i) :
    pyPrevDate days days[i] = d0 + (i : Int) - 1 := by
  unfold pyPrevDate
  rw [contiguous_indexOf days d0 Hd i hi]
  rw [if_neg (by omega)]
  rw [List.getD_eq_getElem _ _ (by omega : i - 1 < days.length)]
  rw [Hd (i - 1) (by omega)]
  omega

theorem contiguous_lastDate (days : List WeatherDay) (d0 : Int)
    (Hd : ∀ j (hj : j < days.length), days[j].date = d0 + j)
    (hne : 1 ≤ days.length) :
    (days.getD (days.length - 1) dummyDay).date = d0 + (days.length : Int) - 1 := by
  rw [List.getD_eq_getElem _ _ (by omega : days.length - 1 < days.length)]
  rw [Hd (days.length - 1) (by omega)]
  omega

/-! ### The scan only emits in-range periods of sufficient length -/

theorem idealGo_good (days : List WeatherDay) (p : UserProfile) (m : Nat)
    (d0 : Int) (Hd : ∀ j (hj : j < days.length), days[j].date = d0 + j) :
    ∀ (k i : Nat) (cur : Option Int) (consec : Nat) (acc : List (Int × Int)),
      days.length - i = k → i ≤ days.length →
      ((cur = none ∧ consec = 0) ∨ ∃ cs, cur = some cs ∧ 1 ≤ consec ∧
        consec ≤ i ∧ cs = d0 + (i : Int) - (consec : Int)) →
      (∀ q ∈ acc, GoodPeriod d0 days.length m q) →
      ∀ q ∈ idealGo days p m (days.drop i) cur consec acc,
        GoodPeriod d0 days.length m q := by
  intro k
  induction k with
  | zero =>
    intro i cur consec acc hk hi hcur hacc q hq
    have hieq : i = days.length := by omega
    rw [hieq, List.drop_length] at hq
    rcases hcur with ⟨hnone, hzero⟩ | ⟨cs, hsome, hc1, hc2, hc3⟩
    · subst hnone
      exact hacc q (by simpa [idealGo] using hq)
    · subst hsome
      simp only [idealGo] at hq
      by_cases hm : m ≤ consec
      · rw [if_pos hm] at hq
        rcases List.mem_append.mp hq with hq | hq
        · exact hacc q hq
        · have hq1 : q = (cs, (days.getD (days.length - 1) dummyDay).date) := by
            simpa using hq
          subst hq1
          rw [contiguous_lastDate days d0 Hd (by omega)]
          exact ⟨by omega, by omega, by omega⟩
      · rw [if_neg hm] at hq
        exact hacc q hq
  | succ k ih =>
    intro i cur consec acc hk hi hcur hacc q hq
    have hilt : i < days.length := by omega
    rw [List.drop_eq_getElem_cons hilt] at hq
    rcases hcur with ⟨hnone, hzero⟩ | ⟨cs, hsome, hc1, hc2, hc3⟩
    · subst hnone
      subst hzero
      simp only [idealGo, Option.getD_none, Option.getD_some] at hq
      by_cases hqual : qualifiesDay p days[i] = true
      · rw [if_pos hqual] at hq
        refine ih (i+1) _ _ _ (by omega) (by omega)
          (Or.inr ⟨days[i].date, rfl, by omega, by omega, ?_⟩) hacc q hq
        rw [Hd i hilt]
        omega
      · rw [if_neg hqual] at hq
        exact ih (i+1) none 0 acc (by omega) (by omega)
          (Or.inl ⟨rfl, rfl⟩) hacc q hq
    · subst hsome
      simp only [idealGo, Option.getD_none, Option.getD_some] at hq
      by_cases hqual : qualifiesDay p days[i] = true
      · rw [if_pos hqual] at hq
        exact ih (i+1) (some cs) (consec+1) acc (by omega) (by omega)
          (Or.inr ⟨cs, rfl, by omega, by omega, by omega⟩) hacc q hq
      · rw [if_neg hqual] at hq
        by_cases hm : m ≤ consec
        · rw [if_pos hm] at hq
          refine ih (i+1) none 0 _ (by omega) (by omega)
            (Or.inl ⟨rfl, rfl⟩) ?_ q hq
          intro q' hq'
          rcases List.mem_append.mp hq' with h | h
          · exact hacc q' h
          · have hq1 : q' = (cs, pyPrevDate days days[i]) := by simpa using h
            subst hq1
            rw [contiguous_pyPrevDate days d0 Hd i hilt (by omega)]
            exact ⟨by omega, by omega, by omega⟩
        · rw [if_neg hm] at hq
          exact ih (i+1) none 0 acc (by omega) (by omega)
            (Or.inl ⟨rfl, rfl⟩) hacc q hq

theorem get_ideal_periods_good (wf : WeatherForecast) (p : UserProfile)
    (m : Nat) (d0 : Int)
    (Hd : ∀ j (hj : j < wf.forecast_days.length),
      (wf.forecast_days[j]).date = d0 + j) :
    ∀ q ∈ wf.get_ideal_periods p m,
      GoodPeriod d0 wf.forecast_days.length m q := by
  intro q hq
  refine idealGo_good wf.forecast_days p m d0 Hd wf.forecast_days.length 0
    none 0 [] (by omega) (by omega) (Or.inl ⟨rfl, rfl⟩) (by simp) q ?_
  simpa [WeatherForecast.get_ideal_periods] using hq

theorem get_trip_duration_days_pos (t : TripLength) :
    1 ≤ get_trip_duration_days t := by
  cases t <;> simp [get_trip_duration_days]

/-- C2: over a contiguous forecast, every candidate pair emitted by
`generate_candidate_windows` — in particular every earlier-start and
later-start shifted variant of a detected ideal period — starts no
earlier than the first forecast day and ends no later than the last
forecast day. -/
theorem candidate_windows_within_bounds (weather : WeatherForecast)
    (p : UserProfile) (d0 : Int)
    (Hd : ∀ j (hj : j < weather.forecast_days.length),
      (weather.forecast_days[j]).date = d0 + j)
    (hne : weather.forecast_days ≠ []) :
    ∀ q ∈ generate_candidate_windows weather p,
      (weather.forecast_days.getD 0 dummyDay).date ≤ q.1 ∧
      q.2 ≤ (weather.forecast_days.getD
        (weather.forecast_days.length - 1) dummyDay).date := by
  intro q hq
  have h0 : 0 < weather.forecast_days.length := List.length_pos.mpr hne
  have hfirst : (weather.forecast_days.getD 0 dummyDay).date = d0 := by
    rw [List.getD_eq_getElem _ _ h0, Hd 0 h0]
    omega
  have hlast := contiguous_lastDate weather.forecast_days d0 Hd (by omega)
  rw [hfirst, hlast]
  have htrip := get_trip_duration_days_pos p.trip_length
  simp only [generate_candidate_windows] at hq
  by_cases hip : weather.get_ideal_periods p
      (get_trip_duration_days p.trip_length) = []
  · rw [if_pos hip] at hq
    simp only [strideFallback] at hq
    obtain ⟨i, hi, rfl⟩ := List.mem_map.mp hq
    have hilt : i < weather.forecast_days.length -
        get_trip_duration_days p.trip_length :=
      List.mem_range.mp (List.mem_filter.mp hi).1
    constructor
    · rw [List.getD_eq_getElem _ _ (by omega), Hd i (by omega)]
      omega
    · rw [List.getD_eq_getElem _ _
        (by omega : i + get_trip_duration_days p.trip_length - 1 <
          weather.forecast_days.length), Hd _ (by omega)]
      omega
  · rw [if_neg hip] at hq
    obtain ⟨per, hper, hq⟩ := List.mem_flatMap.mp hq
    obtain ⟨hg1, hg2, hg3⟩ := get_ideal_periods_good weather p
      (get_trip_duration_days p.trip_length) d0 Hd per hper
    rcases List.mem_cons.mp hq with rfl | hq
    · exact ⟨hg1, by omega⟩
    · obtain ⟨off, hoff, hq⟩ := List.mem_flatMap.mp hq
      have hoff1 : 1 ≤ off ∧ off < 1 + p.flexibility_days := by
        simpa using List.mem_range'_1.mp hoff
      rcases List.mem_append.mp hq with hq | hq
      · rw [hfirst] at hq
        by_cases hg : d0 ≤ per.1 - (off : Int)
        · rw [if_pos hg] at hq
          have hq1 : q = (per.1 - (off : Int), per.1 - (off : Int) +
              (get_trip_duration_days p.trip_length : Int)) := by simpa using hq
          subst hq1
          exact ⟨by omega, by omega⟩
        · rw [if_neg hg] at hq
          simp at hq
      · rw [hlast] at hq
        by_cases hg : per.1 + (off : Int) +
            (get_trip_duration_days p.trip_length : Int) ≤
            d0 + (weather.forecast_days.length : Int) - 1
        · rw [if_pos hg] at hq
          have hq1 : q = (per.1 + (off : Int), per.1 + (off : Int) +
              (get_trip_duration_days p.trip_length : Int)) := by simpa using hq
          subst hq1
          exact ⟨by omega, by omega⟩
        · rw [if_neg hg] at hq
          simp at hq

theorem candidate_windows_within_bounds_witness :
    (cAllGoodForecast.forecast_days.getD 0 dummyDay).date ≤ (1 : Int) ∧
    (8 : Int) ≤ (cAllGoodForecast.forecast_days.getD
      (cAllGoodForecast.forecast_days.length - 1) dummyDay).date :=
  candidate_windows_within_bounds cAllGoodForecast cProfile 0 (by decide)
    (by decide) ((1 : Int), (8 : Int)) (by decide)

/-! ### Single-run forecasts: exact characterisation of the scan -/

theorem idealGo_before_run (days : List WeatherDay) (p : UserProfile) (m : Nat)
    (a b : Nat) (hab : a ≤ b) (hb : b < days.length)
    (Hq : ∀ j (hj : j < days.length),
      qualifiesDay p days[j] = true ↔ (a ≤ j ∧ j ≤ b)) :
    ∀ (k i : Nat) (acc : List (Int × Int)), a - i = k → i ≤ a →
      idealGo days p m (days.drop i) none 0 acc =
      idealGo days p m (days.drop a) none 0 acc := by
  intro k
  induction k with
  | zero =>
    intro i acc hk hi
    have : i = a := by omega
    rw [this]
  | succ k ih =>
    intro i acc hk hi
    have hilt : i < days.length := by omega
    rw [List.drop_eq_getElem_cons hilt]
    simp only [idealGo]
    rw [if_neg (by rw [Hq i hilt]; omega)]
    exact ih (i+1) acc (by omega) (by omega)

theorem idealGo_run (days : List WeatherDay) (p : UserProfile) (m : Nat)
    (d0 : Int) (a b : Nat) (hab : a ≤ b) (hb : b < days.length)
    (Hq : ∀ j (hj : j < days.length),
      qualifiesDay p days[j] = true ↔ (a ≤ j ∧ j ≤ b)) :
    ∀ (k j : Nat) (acc : List (Int × Int)), a < j → j ≤ b + 1 →
      b + 1 - j = k →
      idealGo days p m (days.drop j) (some (d0 + (a : Int))) (j - a) acc =
      idealGo days p m (days.drop (b + 1)) (some (d0 + (a : Int)))
        (b + 1 - a) acc := by
  intro k
  induction k with
  | zero =>
    intro j acc hj1 hj2 hk
    have : j = b + 1 := by omega
    rw [this]
  | succ k ih =>
    intro j acc hj1 hj2 hk
    have hjb : j ≤ b := by omega
    have hjlt : j < days.length := by omega
    rw [List.drop_eq_getElem_cons hjlt]
    simp only [idealGo, Option.getD_some]
    rw [if_pos (by rw [Hq j hjlt]; omega)]
    rw [show j - a + 1 = j + 1 - a from by omega]
    exact ih (j+1) acc (by omega) (by omega) (by omega)

theorem idealGo_tail (days : List WeatherDay) (p : UserProfile) (m : Nat)
    (a b : Nat)
    (Hq : ∀ j (hj : j < days.length),
      qualifiesDay p days[j] = true ↔ (a ≤ j ∧ j ≤ b)) :
    ∀ (k i : Nat) (acc : List (Int × Int)), b < i → days.length - i = k →
      idealGo days p m (days.drop i) none 0 acc = acc := by
  intro k
  induction k with
  | zero =>
    intro i acc hbi hk
    rw [List.drop_eq_nil_of_le (by omega)]
    simp [idealGo]
  | succ k ih =>
    intro i acc hbi hk
    have hilt : i < days.length := by omega
    rw [List.drop_eq_getElem_cons hilt]
    simp only [idealGo]
    rw [if_neg (by rw [Hq i hilt]; omega)]
    exact ih (i+1) acc (by omega) (by omega)

theorem idealGo_exit (days : List WeatherDay) (p : UserProfile) (m : Nat)
    (d0 : Int) (a b : Nat)
    (Hd : ∀ j (hj : j < days.length), days[j].date = d0 + j)
    (Hq : ∀ j (hj : j < days.length),
      qualifiesDay p days[j] = true ↔ (a ≤ j ∧ j ≤ b))
    (hab : a ≤ b) (hb : b < days.length) :
    ∀ acc : List (Int × Int),
      idealGo days p m (days.drop (b + 1)) (some (d0 + (a : Int)))
        (b + 1 - a) acc =
      if m ≤ b + 1 - a then acc ++ [(d0 + (a : Int), d0 + (b : Int))]
      else acc := by
  intro acc
  by_cases hb1 : b + 1 = days.length
  · rw [hb1, List.drop_length]
    simp only [idealGo]
    rw [contiguous_lastDate days d0 Hd (by omega)]
    rw [show d0 + (days.length : Int) - 1 = d0 + (b : Int) from by omega]
  · have hlt2 : b + 1 < days.length := by omega
    rw [List.drop_eq_getElem_cons hlt2]
    simp only [idealGo]
    rw [if_neg (by rw [Hq (b+1) hlt2]; omega)]
    by_cases hm : m ≤ b + 1 - a
    · rw [if_pos hm]
      rw [contiguous_pyPrevDate days d0 Hd (b+1) hlt2 (by omega)]
      rw [idealGo_tail days p m a b Hq (days.length - (b+2)) (b+2) _
        (by omega) rfl]
      rw [if_pos hm]
      have hcast : d0 + ((b + 1 : Nat) : Int) - 1 = d0 + (b : Int) := by
        push_cast
        ring
      rw [hcast]
    · rw [if_neg hm]
      rw [idealGo_tail days p m a b Hq (days.length - (b+2)) (b+2) _
        (by omega) rfl]
      rw [if_neg hm]

theorem get_ideal_periods_single_run (wf : WeatherForecast) (p : UserProfile)
    (m : Nat) (d0 : Int) (a b : Nat)
    (Hd : ∀ j (hj : j < wf.forecast_days.length),
      (wf.forecast_days[j]).date = d0 + j)
    (Hq : ∀ j (hj : j < wf.forecast_days.length),
      qualifiesDay p (wf.forecast_days[j]) = true ↔ (a ≤ j ∧ j ≤ b))
    (hab : a ≤ b) (hb : b < wf.forecast_days.length) :
    wf.get_ideal_periods p m =
      if m ≤ b + 1 - a then [(d0 + (a : Int), d0 + (b : Int))] else [] := by
  unfold WeatherForecast.get_ideal_periods
  rw [show wf.forecast_days = wf.forecast_days.drop 0 from (List.drop_zero _).symm]
  rw [List.drop_zero]
  rw [show (idealGo wf.forecast_days p m wf.forecast_days none 0 [] =
      idealGo wf.forecast_days p m (wf.forecast_days.drop 0) none 0 []) from by
    rw [List.drop_zero]]
  rw [idealGo_before_run wf.forecast_days p m a b hab hb Hq a 0 [] (by omega) (by omega)]
  have halt : a < wf.forecast_days.length := by omega
  rw [List.drop_eq_getElem_cons halt]
  simp only [idealGo, Option.getD_none]
  rw [if_pos (by rw [Hq a halt]; omega)]
  rw [Hd a halt]
  rw [show (0 + 1 : Nat) = a + 1 - a from by omega]
  rw [idealGo_run wf.forecast_days p m d0 a b hab hb Hq (b + 1 - (a + 1))
    (a + 1) [] (by omega) (by omega) rfl]
  rw [idealGo_exit wf.forecast_days p m d0 a b Hd Hq hab hb []]
  split_ifs <;> simp

/-- C3: on a contiguous forecast whose qualifying days are exactly the
single run `a..b`, detection with the required trip length returns
exactly one period spanning the run when the run length equals
`required_trip_days` (also when the run touches the final day), and no
period when the run is one day short — in which case candidate
generation falls through to the stride-3 fallback generator. -/
theorem ideal_run_boundary (wf : WeatherForecast) (p : UserProfile)
    (d0 : Int) (a b : Nat)
    (Hd : ∀ j (hj : j < wf.forecast_days.length),
      (wf.forecast_days[j]).date = d0 + j)
    (Hq : ∀ j (hj : j < wf.forecast_days.length),
      qualifiesDay p (wf.forecast_days[j]) = true ↔ (a ≤ j ∧ j ≤ b))
    (hab : a ≤ b) (hb : b < wf.forecast_days.length) :
    (b + 1 - a = get_trip_duration_days p.trip_length →
      wf.get_ideal_periods p (get_trip_duration_days p.trip_length) =
        [(d0 + (a : Int), d0 + (b : Int))]) ∧
    (b + 1 - a + 1 = get_trip_duration_days p.trip_length →
      wf.get_ideal_periods p (get_trip_duration_days p.trip_length) = [] ∧
      generate_candidate_windows wf p =
        strideFallback wf (get_trip_duration_days p.trip_length)) := by
  have hchar := get_ideal_periods_single_run wf p
    (get_trip_duration_days p.trip_length) d0 a b Hd Hq hab hb
  constructor
  · intro hlen
    rw [hchar, if_pos (by omega)]
  · intro hlen
    have hnil : wf.get_ideal_periods p
        (get_trip_duration_days p.trip_length) = [] := by
      rw [hchar, if_neg (by omega)]
    refine ⟨hnil, ?_⟩
    simp only [generate_candidate_windows]
    rw [if_pos hnil]

theorem ideal_run_boundary_witness :
    cRun7Forecast.get_ideal_periods cProfile 7 = [(2, 8)] ∧
    cRun6Forecast.get_ideal_periods cProfile 7 = [] ∧
    generate_candidate_windows cRun6Forecast cProfile =
      strideFallback cRun6Forecast 7 := by
  have h7 := (ideal_run_boundary cRun7Forecast cProfile 0 2 8 (by decide)
    (by decide) (by decide) (by decide)).1 (by decide)
  have h6 := (ideal_run_boundary cRun6Forecast cProfile 0 2 7 (by decide)
    (by decide) (by decide) (by decide)).2 (by decide)
  refine ⟨?_, h6.1, h6.2⟩
  simpa using h7
